import Mathlib

/-!
Verification of the cost-analysis core of the ai-ops-cost-analyzer repository.

The embedding models `src/app/analysis.py` (classification, savings
estimation, aggregation), `src/app/models.py` (data model), and
`src/app/ai_service.py` (deterministic report synthesis and the narrative
parser).  Python floats are modelled as exact rationals (`ℚ`); Python
strings as `String` / `List Char`.
-/

/-- Resource status enumeration (models.py `ResourceStatus`). -/
inductive ResourceStatus
  | active
  | idle
  | stopped
  | terminated
deriving DecidableEq

/-- One cost record (models.py `CostRecord`).  The pydantic field
validator `parse_usage_percentage` normalizes the usage fields to numbers
at construction time, so the record stores the normalized usage values;
`daily_cost` carries the `ge=0` constraint only as documentation, the
model itself places no bound. -/
structure CostRecord where
  service : String
  region : String
  instance_type : String
  daily_cost : ℚ
  usage_cpu_avg : ℚ
  usage_mem_avg : ℚ
  date : String
  status : ResourceStatus
deriving DecidableEq

/-- Cost record enriched with computed fields (models.py
`CostRecordResponse`). -/
structure CostRecordResponse extends CostRecord where
  usage_cpu_avg_float : ℚ
  usage_mem_avg_float : ℚ
  monthly_cost_estimate : ℚ
  is_underutilized : Bool
  is_idle : Bool
  is_high_cost_anomaly : Bool
deriving DecidableEq

/-- Builds a `CostRecordResponse` from a record plus analysis flags
(models.py `CostRecordResponse.from_cost_record`). -/
def CostRecordResponse.from_cost_record (record : CostRecord)
    (is_underutilized is_idle is_high_cost_anomaly : Bool) : CostRecordResponse :=
  { record with
    usage_cpu_avg_float := record.usage_cpu_avg
    usage_mem_avg_float := record.usage_mem_avg
    monthly_cost_estimate := record.daily_cost * 30
    is_underutilized := is_underutilized
    is_idle := is_idle
    is_high_cost_anomaly := is_high_cost_anomaly }

/-- Cohort-level analysis summary (models.py `AnalysisSummary`). -/
structure AnalysisSummary where
  total_records : ℕ
  total_daily_cost : ℚ
  total_monthly_cost_estimate : ℚ
  underutilized_count : ℕ
  idle_count : ℕ
  high_cost_anomaly_count : ℕ
  potential_monthly_savings : ℚ
  underutilized_resources : List CostRecordResponse
  idle_resources : List CostRecordResponse
  high_cost_anomalies : List CostRecordResponse
deriving DecidableEq

/-- Structured savings report (models.py `CostSavingsReport`). -/
structure CostSavingsReport where
  summary : String
  findings : List String
  recommendations : List String
  estimated_savings : ℚ
  priority_actions : List String
  analysis_summary : AnalysisSummary
deriving DecidableEq

/-- Threshold constant (analysis.py `UNDERUTILIZED_CPU_THRESHOLD`). -/
def CostAnalyzer.UNDERUTILIZED_CPU_THRESHOLD : ℚ := 20.0

/-- Threshold constant (analysis.py `UNDERUTILIZED_MEM_THRESHOLD`). -/
def CostAnalyzer.UNDERUTILIZED_MEM_THRESHOLD : ℚ := 20.0

/-- Threshold constant (analysis.py `IDLE_CPU_THRESHOLD`). -/
def CostAnalyzer.IDLE_CPU_THRESHOLD : ℚ := 5.0

/-- Threshold constant (analysis.py `IDLE_MEM_THRESHOLD`). -/
def CostAnalyzer.IDLE_MEM_THRESHOLD : ℚ := 5.0

/-- Multiplier for the anomaly rule (analysis.py `HIGH_COST_MULTIPLIER`). -/
def CostAnalyzer.HIGH_COST_MULTIPLIER : ℚ := 2.0

/-- Recovery rate for underutilized resources (analysis.py
`SAVINGS_ESTIMATE_UNDERUTILIZED`). -/
def CostAnalyzer.SAVINGS_ESTIMATE_UNDERUTILIZED : ℚ := 0.3

/-- Recovery rate for idle resources (analysis.py `SAVINGS_ESTIMATE_IDLE`). -/
def CostAnalyzer.SAVINGS_ESTIMATE_IDLE : ℚ := 0.8

/-- Recovery rate for anomalies (analysis.py `SAVINGS_ESTIMATE_ANOMALY`). -/
def CostAnalyzer.SAVINGS_ESTIMATE_ANOMALY : ℚ := 0.2

/-- Underutilization predicate (analysis.py `CostAnalyzer.is_underutilized`):
status is active AND CPU < 20 AND memory < 20. -/
def CostAnalyzer.is_underutilized (record : CostRecord) : Bool :=
  decide (record.status = ResourceStatus.active) &&
  decide (record.usage_cpu_avg < CostAnalyzer.UNDERUTILIZED_CPU_THRESHOLD) &&
  decide (record.usage_mem_avg < CostAnalyzer.UNDERUTILIZED_MEM_THRESHOLD)

/-- Idleness predicate (analysis.py `CostAnalyzer.is_idle`): status is
idle OR (CPU < 5 AND memory < 5). -/
def CostAnalyzer.is_idle (record : CostRecord) : Bool :=
  if record.status = ResourceStatus.idle then
    true
  else
    decide (record.usage_cpu_avg < CostAnalyzer.IDLE_CPU_THRESHOLD) &&
    decide (record.usage_mem_avg < CostAnalyzer.IDLE_MEM_THRESHOLD)

/-- High-cost anomaly predicate (analysis.py
`CostAnalyzer.is_high_cost_anomaly`): daily cost strictly exceeds
2 × the cohort average. -/
def CostAnalyzer.is_high_cost_anomaly (record : CostRecord) (avg_cost : ℚ) : Bool :=
  decide (record.daily_cost > avg_cost * CostAnalyzer.HIGH_COST_MULTIPLIER)

/-- Classification of one record against the cohort average, mirroring the
body of the per-record loop in analysis.py `analyze_records`. -/
def CostAnalyzer.classify (avg_cost : ℚ) (record : CostRecord) : CostRecordResponse :=
  CostRecordResponse.from_cost_record record
    (CostAnalyzer.is_underutilized record)
    (CostAnalyzer.is_idle record)
    (CostAnalyzer.is_high_cost_anomaly record avg_cost)

/-- Cohort analysis (analysis.py `CostAnalyzer.analyze_records`).  The
three accumulation loops of the source are rendered as filters over the
classified records and the savings loops as sums over filtered lists. -/
def CostAnalyzer.analyze_records (records : List CostRecord) : AnalysisSummary :=
  if records.isEmpty then
    { total_records := 0
      total_daily_cost := 0
      total_monthly_cost_estimate := 0
      underutilized_count := 0
      idle_count := 0
      high_cost_anomaly_count := 0
      potential_monthly_savings := 0
      underutilized_resources := []
      idle_resources := []
      high_cost_anomalies := [] }
  else
    let total_daily_cost := (records.map (fun r => r.daily_cost)).sum
    let avg_cost := total_daily_cost / (records.length : ℚ)
    let classified := records.map (CostAnalyzer.classify avg_cost)
    let underutilized := classified.filter (fun response => response.is_underutilized)
    let idle := classified.filter (fun response => response.is_idle)
    let anomalies := classified.filter (fun response => response.is_high_cost_anomaly)
    let potential_savings :=
      ((underutilized.filter (fun resource => !resource.is_idle)).map
        (fun resource => resource.monthly_cost_estimate *
          CostAnalyzer.SAVINGS_ESTIMATE_UNDERUTILIZED)).sum +
      (idle.map (fun resource => resource.monthly_cost_estimate *
          CostAnalyzer.SAVINGS_ESTIMATE_IDLE)).sum +
      ((anomalies.filter (fun resource => !resource.is_idle && !resource.is_underutilized)).map
        (fun resource => resource.monthly_cost_estimate *
          CostAnalyzer.SAVINGS_ESTIMATE_ANOMALY)).sum
    { total_records := records.length
      total_daily_cost := total_daily_cost
      total_monthly_cost_estimate := total_daily_cost * 30
      underutilized_count := underutilized.length
      idle_count := idle.length
      high_cost_anomaly_count := anomalies.length
      potential_monthly_savings := potential_savings
      underutilized_resources := underutilized
      idle_resources := idle
      high_cost_anomalies := anomalies }

/-- Cohort average daily cost as computed inside `analyze_records`. -/
def CostAnalyzer.avg_daily_cost (records : List CostRecord) : ℚ :=
  (records.map (fun r => r.daily_cost)).sum / (records.length : ℚ)

/-- Per-record savings credit following the spec wording of the
double-counting policy (§4.3): idle takes the 80% rate with strict
priority, else underutilized the 30% rate, else anomaly the 20% rate,
else zero. -/
def per_record_credit (avg_cost : ℚ) (record : CostRecord) : ℚ :=
  if CostAnalyzer.is_idle record then
    (record.daily_cost * 30) * CostAnalyzer.SAVINGS_ESTIMATE_IDLE
  else if CostAnalyzer.is_underutilized record then
    (record.daily_cost * 30) * CostAnalyzer.SAVINGS_ESTIMATE_UNDERUTILIZED
  else if CostAnalyzer.is_high_cost_anomaly record avg_cost then
    (record.daily_cost * 30) * CostAnalyzer.SAVINGS_ESTIMATE_ANOMALY
  else 0

/-- Digit-string to natural number, most significant digit first. -/
def digitsToNat (cs : List Char) : ℕ :=
  cs.foldl (fun acc c => acc * 10 + (c.toNat - 48)) 0

/-- Splits a character list at the first character satisfying `p`,
returning the prefix and, when a split character was found, the remainder
after it. -/
def splitOnceBy (p : Char → Bool) : List Char → List Char × Option (List Char)
  | [] => ([], none)
  | c :: rest =>
    if p c then ([], some rest)
    else
      let r := splitOnceBy p rest
      (c :: r.1, r.2)

/-- Drops whitespace at both ends, modelling Python `str.strip()`. -/
def trimChars (cs : List Char) : List Char :=
  ((cs.dropWhile Char.isWhitespace).reverse.dropWhile Char.isWhitespace).reverse

/-- Parses the mantissa part of a Python float literal: digits with an
optional decimal point, at least one digit overall. -/
def parseMantissa (cs : List Char) : Option ℚ :=
  let s := splitOnceBy (fun c => c = '.') cs
  let ip := s.1
  let fp := s.2.getD []
  if ip.all Char.isDigit && fp.all Char.isDigit && (!ip.isEmpty || !fp.isEmpty) then
    some ((digitsToNat ip : ℚ) + (digitsToNat fp : ℚ) / (10 : ℚ) ^ fp.length)
  else
    none

/-- Parses the exponent part of a Python float literal: an optional sign
followed by at least one digit. -/
def parseExponent (cs : List Char) : Option ℤ :=
  match cs with
  | '+' :: rest =>
    if rest.all Char.isDigit && !rest.isEmpty then some (digitsToNat rest) else none
  | '-' :: rest =>
    if rest.all Char.isDigit && !rest.isEmpty then some (-(digitsToNat rest : ℤ)) else none
  | rest =>
    if rest.all Char.isDigit && !rest.isEmpty then some (digitsToNat rest) else none

/-- Parses an unsigned Python float literal: mantissa with an optional
`e`/`E` exponent. -/
def parseUnsignedFloat (cs : List Char) : Option ℚ :=
  let s := splitOnceBy (fun c => c = 'e' || c = 'E') cs
  match s.2 with
  | none => parseMantissa s.1
  | some ecs =>
    match parseMantissa s.1, parseExponent ecs with
    | some q, some e => some (q * (10 : ℚ) ^ e)
    | _, _ => none

/-- Models Python `float(s)` on a string: strip surrounding whitespace,
then an optional sign followed by an unsigned float literal.  Returns
`none` where Python raises `ValueError` (named `InvalidUsageValue` by the
spec).  Special values (`inf`, `nan`) are not modelled; no input in this
development uses them. -/
def pythonFloat (cs : List Char) : Option ℚ :=
  match trimChars cs with
  | '+' :: rest => parseUnsignedFloat rest
  | '-' :: rest => (parseUnsignedFloat rest).map (fun q => -q)
  | rest => parseUnsignedFloat rest

/-- A usage value as received by the normalizer: raw text or a number. -/
inductive UsageValue
  | strVal (s : String)
  | numVal (q : ℚ)
deriving DecidableEq

/-- Usage normalizer (analysis.py `CostAnalyzer.parse_usage_percentage`):
for a string the source runs `float(usage_str.replace('%', ''))`, which
removes every `%` character and parses the remainder; a number is passed
through `float` unchanged. -/
def CostAnalyzer.parse_usage_percentage : UsageValue → Option ℚ
  | UsageValue.strVal s => pythonFloat (s.data.filter (fun c => !(c = '%')))
  | UsageValue.numVal q => some q

/-- Inserts thousands separators into a reversed digit list (least
significant digit first). -/
def commaRev : List Char → List Char
  | a :: b :: c :: rest =>
    if rest.isEmpty then [a, b, c] else a :: b :: c :: ',' :: commaRev rest
  | l => l

/-- Renders a natural number with thousands separators. -/
def withCommas (n : ℕ) : String :=
  String.mk ((commaRev (toString n).data.reverse).reverse)

/-- Rounds a nonnegative rational to the nearest integer, ties to even,
as Python string formatting does. -/
def roundHalfEven (q : ℚ) : ℤ :=
  let n := ⌊q⌋
  let frac := q - (n : ℚ)
  if frac > 1 / 2 then n + 1
  else if frac < 1 / 2 then n
  else if n % 2 = 0 then n else n + 1

/-- Renders the low two decimal digits of a cents value. -/
def twoDigits (n : ℕ) : String :=
  if n < 10 then "0" ++ toString n else toString n

/-- Models the Python format specifier `:,.2f` applied to a monetary
value: two decimals (ties to even) and thousands separators. -/
def formatMoney (q : ℚ) : String :=
  let sign := if q < 0 then "-" else ""
  let cents := (roundHalfEven (|q| * 100)).toNat
  sign ++ withCommas (cents / 100) ++ "." ++ twoDigits (cents % 100)

/-- Aggregate 80%-rate monthly savings over the idle collection, the
subexpression `sum(r.monthly_cost_estimate * 0.8 for r in
analysis_summary.idle_resources)` of ai_service.py. -/
def AIService.idleSavingsTotal (analysis_summary : AnalysisSummary) : ℚ :=
  (analysis_summary.idle_resources.map
    (fun r => r.monthly_cost_estimate * (0.8 : ℚ))).sum

/-- Deterministic report synthesis (ai_service.py
`AIService._generate_mock_report`).  Each `if` of the source appends the
corresponding item; the two standing recommendations are always appended
last. -/
def AIService.generate_mock_report (analysis_summary : AnalysisSummary) : CostSavingsReport :=
  let summary_text :=
    "Analysis of " ++ toString analysis_summary.total_records ++
    " cloud resources reveals significant cost optimization opportunities. " ++
    "Current monthly spend is $" ++
    formatMoney analysis_summary.total_monthly_cost_estimate ++
    ", with potential savings of $" ++
    formatMoney analysis_summary.potential_monthly_savings ++ " per month."
  let findings :=
    (if analysis_summary.idle_count > 0 then
      ["Found " ++ toString analysis_summary.idle_count ++
       " idle resources that can be stopped or terminated, saving approximately $" ++
       formatMoney (AIService.idleSavingsTotal analysis_summary) ++ "/month"]
     else []) ++
    (if analysis_summary.underutilized_count > 0 then
      ["Identified " ++ toString analysis_summary.underutilized_count ++
       " underutilized resources that can be downsized to smaller instance types."]
     else []) ++
    (if analysis_summary.high_cost_anomaly_count > 0 then
      ["Detected " ++ toString analysis_summary.high_cost_anomaly_count ++
       " high-cost anomalies requiring optimization review."]
     else [])
  let recommendations :=
    (if !analysis_summary.idle_resources.isEmpty then
      ["Immediately stop or terminate idle resources, especially: " ++
       String.intercalate ", "
         ((analysis_summary.idle_resources.take 3).map (fun r => r.service))]
     else []) ++
    (if !analysis_summary.underutilized_resources.isEmpty then
      ["Downsize underutilized resources to smaller instance types. " ++
       "Consider right-sizing based on actual usage patterns."]
     else []) ++
    (if !analysis_summary.high_cost_anomalies.isEmpty then
      ["Review high-cost resources for optimization opportunities. " ++
       "Consider reserved instances or spot instances where appropriate."]
     else []) ++
    ["Implement automated resource scheduling for non-production environments.",
     "Set up cost alerts and budgets to prevent future cost anomalies."]
  let priority_actions :=
    (if !analysis_summary.idle_resources.isEmpty then
      ["Terminate " ++ toString analysis_summary.idle_resources.length ++
       " idle resources (highest impact: $" ++
       formatMoney (AIService.idleSavingsTotal analysis_summary) ++ "/month savings)"]
     else []) ++
    (if !analysis_summary.underutilized_resources.isEmpty then
      ["Right-size " ++ toString analysis_summary.underutilized_resources.length ++
       " underutilized resources"]
     else []) ++
    (if !analysis_summary.high_cost_anomalies.isEmpty then
      ["Review and optimize " ++ toString analysis_summary.high_cost_anomalies.length ++
       " high-cost resources"]
     else [])
  { summary := summary_text
    findings := findings
    recommendations := recommendations
    estimated_savings := analysis_summary.potential_monthly_savings
    priority_actions := priority_actions
    analysis_summary := analysis_summary }

/-- Active section of the narrative parser (the `current_section` strings
of ai_service.py `_parse_ai_response`). -/
inductive NarrativeSection
  | summary
  | findings
  | recommendations
  | priority
deriving DecidableEq

/-- Accumulator of the narrative parser loop. -/
structure ParseState where
  current_section : Option NarrativeSection
  summary : String
  findings : List String
  recommendations : List String
  priority_actions : List String
deriving DecidableEq

/-- Initial accumulator of the narrative parser loop. -/
def ParseState.init : ParseState :=
  { current_section := none
    summary := ""
    findings := []
    recommendations := []
    priority_actions := [] }

/-- Lowercases a character list, modelling Python `str.lower()`. -/
def lowerChars (cs : List Char) : List Char :=
  cs.map Char.toLower

/-- Contiguous containment of `tok` in a character list. -/
def isInfixOfChars (tok : List Char) : List Char → Bool
  | [] => tok.isEmpty
  | c :: rest => tok.isPrefixOf (c :: rest) || isInfixOfChars tok rest

/-- Substring containment, modelling Python `tok in line`. -/
def containsTok (tok : String) (cs : List Char) : Bool :=
  isInfixOfChars tok.data cs

/-- Models the Python lstrip call of the bullet branch: drops leading
bullet-marker and space characters. -/
def lstripBullet (cs : List Char) : List Char :=
  cs.dropWhile (fun c => c = '-' || c = '•' || c = '*' || c = ' ')

/-- Splits a character list on newline characters, modelling Python
`str.split('\n')` (empty segments preserved). -/
def splitOnNewline : List Char → List (List Char)
  | [] => [[]]
  | c :: rest =>
    if c = '\n' then [] :: splitOnNewline rest
    else
      match splitOnNewline rest with
      | [] => [[c]]
      | l :: ls => (c :: l) :: ls

/-- One iteration of the line loop of ai_service.py `_parse_ai_response`:
strip the line, skip it when empty, switch the active section when it
contains a section token, otherwise append a bullet item or capture the
summary sentence. -/
def AIService.processLine (st : ParseState) (rawLine : List Char) : ParseState :=
  let line := trimChars rawLine
  if line.isEmpty then st
  else
    let low := lowerChars line
    if containsTok "summary" low || containsTok "executive" low then
      { st with current_section := some NarrativeSection.summary }
    else if containsTok "finding" low then
      { st with current_section := some NarrativeSection.findings }
    else if containsTok "recommendation" low then
      { st with current_section := some NarrativeSection.recommendations }
    else if containsTok "priority" low || containsTok "action" low then
      { st with current_section := some NarrativeSection.priority }
    else if line.head? = some '-' || line.head? = some '•' || line.head? = some '*' then
      let item := String.mk (trimChars (lstripBullet line))
      match st.current_section with
      | some NarrativeSection.findings => { st with findings := st.findings ++ [item] }
      | some NarrativeSection.recommendations =>
        { st with recommendations := st.recommendations ++ [item] }
      | some NarrativeSection.priority =>
        { st with priority_actions := st.priority_actions ++ [item] }
      | _ => st
    else if st.current_section = some NarrativeSection.summary && st.summary = "" then
      { st with summary := String.mk line }
    else st

/-- Runs the narrative parser loop over every line of the response. -/
def AIService.parseSections (ai_response : String) : ParseState :=
  (splitOnNewline ai_response.data).foldl AIService.processLine ParseState.init

/-- Substitutes a default when a parsed list came out empty, modelling the
Python `list or [default]` idiom. -/
def orDefault (l : List String) (d : List String) : List String :=
  if l.isEmpty then d else l

/-- Narrative parsing (ai_service.py `AIService._parse_ai_response`):
scan the lines, then fall back to the deterministic report when no
summary or no findings were captured; otherwise truncate the lists and
substitute placeholders for empty sections. -/
def AIService.parse_ai_response (ai_response : String)
    (analysis_summary : AnalysisSummary) : CostSavingsReport :=
  let st := AIService.parseSections ai_response
  if st.summary = "" || st.findings.isEmpty then
    AIService.generate_mock_report analysis_summary
  else
    { summary :=
        if st.summary = "" then
          "Analysis of " ++ toString analysis_summary.total_records ++ " resources."
        else st.summary
      findings :=
        orDefault (st.findings.take 10)
          ["Review cost data for optimization opportunities"]
      recommendations :=
        orDefault (st.recommendations.take 10) ["Implement cost monitoring"]
      estimated_savings := analysis_summary.potential_monthly_savings
      priority_actions := orDefault (st.priority_actions.take 5) ["Review findings"]
      analysis_summary := analysis_summary }

/-- Disjunction of the six section-token checks of the narrative parser
line loop. -/
def containsSectionToken (low : List Char) : Bool :=
  containsTok "summary" low || containsTok "executive" low ||
  containsTok "finding" low || containsTok "recommendation" low ||
  containsTok "priority" low || containsTok "action" low

/-- Sample cost record with fixed textual fields, used for concrete
instances in the theorems below. -/
def mkRecord (daily_cost cpu mem : ℚ) (status : ResourceStatus) : CostRecord :=
  { service := "svc"
    region := "us-east-1"
    instance_type := "t3.micro"
    daily_cost := daily_cost
    usage_cpu_avg := cpu
    usage_mem_avg := mem
    date := "2024-01-01"
    status := status }

/-- The all-zero analysis summary with empty collections. -/
def zeroSummary : AnalysisSummary :=
  { total_records := 0
    total_daily_cost := 0
    total_monthly_cost_estimate := 0
    underutilized_count := 0
    idle_count := 0
    high_cost_anomaly_count := 0
    potential_monthly_savings := 0
    underutilized_resources := []
    idle_resources := []
    high_cost_anomalies := [] }

theorem sum_filter_map (l : List α) (p : α → Bool) (f : α → ℚ) :
    ((l.filter p).map f).sum = (l.map (fun x => if p x then f x else 0)).sum := by
  induction l with
  | nil => simp
  | cons a t ih =>
    by_cases h : p a = true <;> simp [List.filter_cons, h, ih]

theorem sum_map_add (l : List α) (f g : α → ℚ) :
    (l.map (fun x => f x + g x)).sum = (l.map f).sum + (l.map g).sum := by
  induction l with
  | nil => simp
  | cons a t ih => simp [ih]; ring

theorem sum_map_mul_const (l : List α) (f : α → ℚ) (c : ℚ) :
    (l.map (fun x => f x * c)).sum = (l.map f).sum * c := by
  induction l with
  | nil => simp
  | cons a t ih => simp [ih]; ring

theorem savings_formula (avg : ℚ) (l : List CostRecord) :
    ((((l.map (CostAnalyzer.classify avg)).filter
          (fun response => response.is_underutilized)).filter
        (fun resource => !resource.is_idle)).map
      (fun resource => resource.monthly_cost_estimate *
        CostAnalyzer.SAVINGS_ESTIMATE_UNDERUTILIZED)).sum +
    (((l.map (CostAnalyzer.classify avg)).filter
        (fun response => response.is_idle)).map
      (fun resource => resource.monthly_cost_estimate *
        CostAnalyzer.SAVINGS_ESTIMATE_IDLE)).sum +
    ((((l.map (CostAnalyzer.classify avg)).filter
          (fun response => response.is_high_cost_anomaly)).filter
        (fun resource => !resource.is_idle && !resource.is_underutilized)).map
      (fun resource => resource.monthly_cost_estimate *
        CostAnalyzer.SAVINGS_ESTIMATE_ANOMALY)).sum
    = (l.map (per_record_credit avg)).sum := by
  induction l with
  | nil => simp
  | cons r rs ih =>
    cases hu : CostAnalyzer.is_underutilized r <;>
      cases hi : CostAnalyzer.is_idle r <;>
        cases ha : CostAnalyzer.is_high_cost_anomaly r avg <;>
          · simp only [List.map_cons, List.filter_cons, CostAnalyzer.classify,
              CostRecordResponse.from_cost_record, hu, hi, ha, per_record_credit,
              Bool.not_true, Bool.not_false, Bool.and_self, Bool.true_and,
              Bool.false_and, Bool.and_true, Bool.and_false, if_true, if_false,
              List.sum_cons, Bool.false_eq_true, Bool.true_eq_false, ite_true,
              ite_false, cond_true, cond_false]
            simp only [CostAnalyzer.classify, CostRecordResponse.from_cost_record] at ih
            linarith [ih]

theorem potential_savings_eq (records : List CostRecord) :
    (CostAnalyzer.analyze_records records).potential_monthly_savings =
      (records.map (per_record_credit (CostAnalyzer.avg_daily_cost records))).sum := by
  match records with
  | [] => simp [CostAnalyzer.analyze_records]
  | r :: rs =>
    have hne : (r :: rs).isEmpty = false := rfl
    simp only [CostAnalyzer.analyze_records, hne, Bool.false_eq_true, if_false]
    exact savings_formula _ _

theorem total_monthly_eq_sum (records : List CostRecord) :
    (CostAnalyzer.analyze_records records).total_monthly_cost_estimate =
      (records.map (fun r => r.daily_cost)).sum * 30 := by
  match records with
  | [] => simp [CostAnalyzer.analyze_records]
  | r :: rs =>
    have hne : (r :: rs).isEmpty = false := rfl
    simp only [CostAnalyzer.analyze_records, hne, Bool.false_eq_true, if_false]

theorem total_monthly_eq (records : List CostRecord) :
    (CostAnalyzer.analyze_records records).total_monthly_cost_estimate =
      (CostAnalyzer.analyze_records records).total_daily_cost * 30 := by
  match records with
  | [] => simp [CostAnalyzer.analyze_records]
  | r :: rs =>
    have hne : (r :: rs).isEmpty = false := rfl
    simp only [CostAnalyzer.analyze_records, hne, Bool.false_eq_true, if_false]

theorem counts_eq_lengths (records : List CostRecord) :
    (CostAnalyzer.analyze_records records).underutilized_count =
      (CostAnalyzer.analyze_records records).underutilized_resources.length ∧
    (CostAnalyzer.analyze_records records).idle_count =
      (CostAnalyzer.analyze_records records).idle_resources.length ∧
    (CostAnalyzer.analyze_records records).high_cost_anomaly_count =
      (CostAnalyzer.analyze_records records).high_cost_anomalies.length := by
  match records with
  | [] => exact ⟨rfl, rfl, rfl⟩
  | r :: rs => exact ⟨rfl, rfl, rfl⟩

theorem per_record_credit_nonneg (avg : ℚ) (r : CostRecord)
    (h : 0 ≤ r.daily_cost) : 0 ≤ per_record_credit avg r := by
  unfold per_record_credit CostAnalyzer.SAVINGS_ESTIMATE_IDLE
    CostAnalyzer.SAVINGS_ESTIMATE_UNDERUTILIZED CostAnalyzer.SAVINGS_ESTIMATE_ANOMALY
  split_ifs <;> nlinarith [h]

theorem per_record_credit_le (avg : ℚ) (r : CostRecord)
    (h : 0 ≤ r.daily_cost) :
    per_record_credit avg r ≤ (r.daily_cost * 30) * CostAnalyzer.SAVINGS_ESTIMATE_IDLE := by
  unfold per_record_credit CostAnalyzer.SAVINGS_ESTIMATE_IDLE
    CostAnalyzer.SAVINGS_ESTIMATE_UNDERUTILIZED CostAnalyzer.SAVINGS_ESTIMATE_ANOMALY
  split_ifs <;> nlinarith [h]

theorem savings_nonneg (records : List CostRecord)
    (h : ∀ r ∈ records, 0 ≤ r.daily_cost) :
    0 ≤ (CostAnalyzer.analyze_records records).potential_monthly_savings := by
  rw [potential_savings_eq]
  apply List.sum_nonneg
  intro x hx
  rcases List.mem_map.mp hx with ⟨r, hr, rfl⟩
  exact per_record_credit_nonneg _ _ (h r hr)

/-- C1: potential_monthly_savings is the sum of exactly one per-record
credit chosen by strict priority — idle gets the 0.8 rate and excludes
the other categories, else underutilized gets the 0.3 rate and excludes
anomaly credit, else a high-cost anomaly gets the 0.2 rate, and an
unflagged record contributes zero; in particular a record flagged both
idle and underutilized contributes only the 0.8 rate. -/
theorem C1_savings_priority (records : List CostRecord) :
    (CostAnalyzer.analyze_records records).potential_monthly_savings =
      (records.map (per_record_credit (CostAnalyzer.avg_daily_cost records))).sum :=
  potential_savings_eq records

/-- C4: the summary satisfies total_monthly_cost_estimate =
total_daily_cost × 30, each category count equals the length of its
collection, and (given that the daily_cost of every record is ≥ 0)
potential_monthly_savings ≥ 0. -/
theorem C4_summary_invariants (records : List CostRecord) :
    (CostAnalyzer.analyze_records records).total_monthly_cost_estimate =
      (CostAnalyzer.analyze_records records).total_daily_cost * 30 ∧
    (CostAnalyzer.analyze_records records).underutilized_count =
      (CostAnalyzer.analyze_records records).underutilized_resources.length ∧
    (CostAnalyzer.analyze_records records).idle_count =
      (CostAnalyzer.analyze_records records).idle_resources.length ∧
    (CostAnalyzer.analyze_records records).high_cost_anomaly_count =
      (CostAnalyzer.analyze_records records).high_cost_anomalies.length ∧
    ((∀ r ∈ records, 0 ≤ r.daily_cost) →
      0 ≤ (CostAnalyzer.analyze_records records).potential_monthly_savings) :=
  ⟨total_monthly_eq records, (counts_eq_lengths records).1,
   (counts_eq_lengths records).2.1, (counts_eq_lengths records).2.2,
   fun h => savings_nonneg records h⟩

/-- Witness for C4 at a concrete one-record cohort with nonnegative
daily cost. -/
theorem C4_summary_invariants_witness :
    0 ≤ (CostAnalyzer.analyze_records
      [mkRecord 10 50 50 ResourceStatus.active]).potential_monthly_savings :=
  (C4_summary_invariants [mkRecord 10 50 50 ResourceStatus.active]).2.2.2.2
    (by decide)

/-- C6: analyzing the empty cohort returns the all-zero summary with
empty collections, without any error. -/
theorem C6_empty_cohort : CostAnalyzer.analyze_records [] = zeroSummary := rfl

/-- C9: with nonnegative daily costs, potential_monthly_savings never
exceeds 0.8 × total_monthly_cost_estimate, since each record contributes
at most one credit at a rate of at most 0.8 of its own monthly cost. -/
theorem C9_savings_upper_bound (records : List CostRecord)
    (h : ∀ r ∈ records, 0 ≤ r.daily_cost) :
    (CostAnalyzer.analyze_records records).potential_monthly_savings ≤
      (0.8 : ℚ) * (CostAnalyzer.analyze_records records).total_monthly_cost_estimate := by
  rw [potential_savings_eq, total_monthly_eq_sum]
  have hle : (records.map (per_record_credit (CostAnalyzer.avg_daily_cost records))).sum ≤
      (records.map (fun r => (r.daily_cost * 30) *
        CostAnalyzer.SAVINGS_ESTIMATE_IDLE)).sum := by
    apply List.sum_le_sum
    intro r hr
    exact per_record_credit_le _ _ (h r hr)
  refine le_trans hle ?_
  have h30 : (records.map (fun r => (r.daily_cost * 30) *
      CostAnalyzer.SAVINGS_ESTIMATE_IDLE)).sum =
      ((records.map (fun r => r.daily_cost)).sum * 30) *
        CostAnalyzer.SAVINGS_ESTIMATE_IDLE := by
    rw [← sum_map_mul_const, ← sum_map_mul_const]
  rw [h30]
  unfold CostAnalyzer.SAVINGS_ESTIMATE_IDLE
  linarith

/-- Witness for C9 at a concrete one-record cohort. -/
theorem C9_savings_upper_bound_witness :
    (CostAnalyzer.analyze_records
      [mkRecord 10 2 2 ResourceStatus.active]).potential_monthly_savings ≤
      (0.8 : ℚ) * (CostAnalyzer.analyze_records
        [mkRecord 10 2 2 ResourceStatus.active]).total_monthly_cost_estimate :=
  C9_savings_upper_bound [mkRecord 10 2 2 ResourceStatus.active] (by decide)

/-- C5 counterexample: `normalize("12%34")` does not fail — the source
removes every `%` character (not only a trailing suffix), so the
remainder `1234` parses and the call returns 1234.0. -/
theorem C5_counterexample :
    CostAnalyzer.parse_usage_percentage (UsageValue.strVal "12%34") = some 1234 ∧
    CostAnalyzer.parse_usage_percentage (UsageValue.strVal "12%34") ≠ none := by
  have h : CostAnalyzer.parse_usage_percentage (UsageValue.strVal "12%34") = some 1234 := by
    simp +decide [CostAnalyzer.parse_usage_percentage, pythonFloat, trimChars,
      parseUnsignedFloat, parseMantissa, parseExponent, splitOnceBy, digitsToNat]
  exact ⟨h, by rw [h]; exact Option.some_ne_none _⟩

/-- C5 as amended: normalize returns 42.0 on "42%", "42" and 42.0 and
fails on "abc", but the `%` stripping removes every `%` character
anywhere in the string, so "12%34" succeeds with 1234.0 instead of
failing; in general the string case equals Python float over the
%-free remainder. -/
theorem C5_amended_normalize :
    CostAnalyzer.parse_usage_percentage (UsageValue.strVal "42%") = some 42 ∧
    CostAnalyzer.parse_usage_percentage (UsageValue.strVal "42") = some 42 ∧
    CostAnalyzer.parse_usage_percentage (UsageValue.numVal 42) = some 42 ∧
    CostAnalyzer.parse_usage_percentage (UsageValue.strVal "abc") = none ∧
    CostAnalyzer.parse_usage_percentage (UsageValue.strVal "12%34") = some 1234 ∧
    (∀ s : String, CostAnalyzer.parse_usage_percentage (UsageValue.strVal s) =
      pythonFloat (s.data.filter (fun c => !(c = '%')))) := by
  refine ⟨?_, ?_, rfl, ?_, ?_, fun s => rfl⟩ <;>
    simp +decide [CostAnalyzer.parse_usage_percentage, pythonFloat, trimChars,
      parseUnsignedFloat, parseMantissa, parseExponent, splitOnceBy, digitsToNat]

/-- C7: is_underutilized holds iff status is active with CPU < 20 and
memory < 20; is_idle holds iff status is idle or CPU < 5 and memory < 5;
the predicates are independent — an active record at 10/10 is
underutilized but not idle, an active record at 3/3 is both, and a
record with status idle is idle regardless of usage. -/
theorem C7_predicates :
    (∀ record : CostRecord, CostAnalyzer.is_underutilized record = true ↔
      (record.status = ResourceStatus.active ∧
       record.usage_cpu_avg < 20 ∧ record.usage_mem_avg < 20)) ∧
    (∀ record : CostRecord, CostAnalyzer.is_idle record = true ↔
      (record.status = ResourceStatus.idle ∨
       (record.usage_cpu_avg < 5 ∧ record.usage_mem_avg < 5))) ∧
    (CostAnalyzer.is_underutilized (mkRecord 10 10 10 ResourceStatus.active) = true ∧
     CostAnalyzer.is_idle (mkRecord 10 10 10 ResourceStatus.active) = false) ∧
    (CostAnalyzer.is_idle (mkRecord 10 3 3 ResourceStatus.active) = true ∧
     CostAnalyzer.is_underutilized (mkRecord 10 3 3 ResourceStatus.active) = true) ∧
    (∀ record : CostRecord, record.status = ResourceStatus.idle →
      CostAnalyzer.is_idle record = true) := by
  refine ⟨fun record => ?_, fun record => ?_,
    ⟨by norm_num [CostAnalyzer.is_underutilized, mkRecord,
        CostAnalyzer.UNDERUTILIZED_CPU_THRESHOLD, CostAnalyzer.UNDERUTILIZED_MEM_THRESHOLD],
     by norm_num [CostAnalyzer.is_idle, mkRecord, CostAnalyzer.IDLE_CPU_THRESHOLD,
        CostAnalyzer.IDLE_MEM_THRESHOLD]; try decide⟩,
    ⟨by norm_num [CostAnalyzer.is_idle, mkRecord, CostAnalyzer.IDLE_CPU_THRESHOLD,
        CostAnalyzer.IDLE_MEM_THRESHOLD]; try decide,
     by norm_num [CostAnalyzer.is_underutilized, mkRecord,
        CostAnalyzer.UNDERUTILIZED_CPU_THRESHOLD, CostAnalyzer.UNDERUTILIZED_MEM_THRESHOLD]⟩,
    fun record h => ?_⟩
  · unfold CostAnalyzer.is_underutilized CostAnalyzer.UNDERUTILIZED_CPU_THRESHOLD
      CostAnalyzer.UNDERUTILIZED_MEM_THRESHOLD
    simp [Bool.and_eq_true, decide_eq_true_eq, and_assoc]
    norm_num
  · unfold CostAnalyzer.is_idle CostAnalyzer.IDLE_CPU_THRESHOLD
      CostAnalyzer.IDLE_MEM_THRESHOLD
    by_cases h : record.status = ResourceStatus.idle
    · simp [h]
    · simp [h, Bool.and_eq_true, decide_eq_true_eq]
      norm_num
  · unfold CostAnalyzer.is_idle
    simp [h]

/-- Witness for the conditional clause of C7: a record with status idle
and usage 50/50 is classified idle. -/
theorem C7_predicates_witness :
    CostAnalyzer.is_idle (mkRecord 20 50 50 ResourceStatus.idle) = true :=
  C7_predicates.2.2.2.2 (mkRecord 20 50 50 ResourceStatus.idle) rfl

/-- C8: a record is a high-cost anomaly iff its daily cost strictly
exceeds twice the cohort average; at average 10.0, cost 25.0 is an
anomaly while costs 19.0 and exactly 20.0 are not. -/
theorem C8_anomaly_rule :
    (∀ (record : CostRecord) (avg_cost : ℚ),
      CostAnalyzer.is_high_cost_anomaly record avg_cost = true ↔
        record.daily_cost > 2 * avg_cost) ∧
    CostAnalyzer.is_high_cost_anomaly (mkRecord 25 50 50 ResourceStatus.active) 10 = true ∧
    CostAnalyzer.is_high_cost_anomaly (mkRecord 19 50 50 ResourceStatus.active) 10 = false ∧
    CostAnalyzer.is_high_cost_anomaly (mkRecord 20 50 50 ResourceStatus.active) 10 = false := by
  refine ⟨fun record avg_cost => ?_,
    by norm_num [CostAnalyzer.is_high_cost_anomaly, mkRecord,
      CostAnalyzer.HIGH_COST_MULTIPLIER],
    by norm_num [CostAnalyzer.is_high_cost_anomaly, mkRecord,
      CostAnalyzer.HIGH_COST_MULTIPLIER],
    by norm_num [CostAnalyzer.is_high_cost_anomaly, mkRecord,
      CostAnalyzer.HIGH_COST_MULTIPLIER]⟩
  unfold CostAnalyzer.is_high_cost_anomaly CostAnalyzer.HIGH_COST_MULTIPLIER
  simp [decide_eq_true_eq]
  constructor <;> intro h <;> linarith

/-- C2: when the narrative parse captures no summary line or no findings
bullets, all parsed output is discarded and the result equals the
report produced by the deterministic synthesis path for the same
summary. -/
theorem C2_parser_fallback (analysis_summary : AnalysisSummary) (narrative : String)
    (h : (AIService.parseSections narrative).summary = "" ∨
         (AIService.parseSections narrative).findings = []) :
    AIService.parse_ai_response narrative analysis_summary =
      AIService.generate_mock_report analysis_summary := by
  unfold AIService.parse_ai_response
  rcases h with h | h <;> simp [h]

/-- Witness for C2: a narrative of only unrelated prose with no bullet
items falls back to the deterministic report. -/
theorem C2_parser_fallback_witness :
    AIService.parse_ai_response "The quick brown fox.\nNothing relevant here."
      zeroSummary = AIService.generate_mock_report zeroSummary :=
  C2_parser_fallback zeroSummary "The quick brown fox.\nNothing relevant here."
    (Or.inr (by decide))

/-- C3 counterexample: for the all-zero summary (all three category
counts zero) the deterministic synthesis path returns an EMPTY
priority_actions list — no fallback placeholder is substituted — so the
claim that priority_actions is non-empty is false. -/
theorem C3_counterexample :
    zeroSummary.idle_count = 0 ∧ zeroSummary.underutilized_count = 0 ∧
    zeroSummary.high_cost_anomaly_count = 0 ∧
    (AIService.generate_mock_report zeroSummary).priority_actions = [] :=
  ⟨rfl, rfl, rfl, rfl⟩

/-- C3 as amended: for a summary with all three counts zero and all
three collections empty, the deterministic path returns a non-empty
recommendations list — exactly the two standing recommendations — while
its findings and priority_actions lists are empty (the placeholder
substitution of the parsing path does not apply to this path). -/
theorem C3_amended_report (s : AnalysisSummary)
    (h1 : s.idle_count = 0) (h2 : s.underutilized_count = 0)
    (h3 : s.high_cost_anomaly_count = 0)
    (h4 : s.idle_resources = []) (h5 : s.underutilized_resources = [])
    (h6 : s.high_cost_anomalies = []) :
    (AIService.generate_mock_report s).recommendations =
      ["Implement automated resource scheduling for non-production environments.",
       "Set up cost alerts and budgets to prevent future cost anomalies."] ∧
    (AIService.generate_mock_report s).recommendations ≠ [] ∧
    (AIService.generate_mock_report s).findings = [] ∧
    (AIService.generate_mock_report s).priority_actions = [] := by
  unfold AIService.generate_mock_report
  simp [h1, h2, h3, h4, h5, h6]

/-- Witness for C3 as amended, at the all-zero summary. -/
theorem C3_amended_report_witness :
    (AIService.generate_mock_report zeroSummary).recommendations =
      ["Implement automated resource scheduling for non-production environments.",
       "Set up cost alerts and budgets to prevent future cost anomalies."] ∧
    (AIService.generate_mock_report zeroSummary).recommendations ≠ [] ∧
    (AIService.generate_mock_report zeroSummary).findings = [] ∧
    (AIService.generate_mock_report zeroSummary).priority_actions = [] :=
  C3_amended_report zeroSummary rfl rfl rfl rfl rfl rfl

/-- C10: the section-token checks precede the bullet check, so a line
containing any section token — even one starting with a bullet marker —
only switches the active section and is never appended to the summary or
to any of the three item lists. -/
theorem C10_section_precedence (st : ParseState) (line : List Char)
    (h : containsSectionToken (lowerChars (trimChars line)) = true) :
    (AIService.processLine st line).summary = st.summary ∧
    (AIService.processLine st line).findings = st.findings ∧
    (AIService.processLine st line).recommendations = st.recommendations ∧
    (AIService.processLine st line).priority_actions = st.priority_actions := by
  have hne : (trimChars line).isEmpty = false := by
    cases htl : trimChars line with
    | nil =>
      rw [htl] at h
      exact absurd h (by decide)
    | cons a t => rfl
  unfold AIService.processLine
  unfold containsSectionToken at h
  cases h1 : containsTok "summary" (lowerChars (trimChars line)) <;>
    cases h2 : containsTok "executive" (lowerChars (trimChars line)) <;>
      cases h3 : containsTok "finding" (lowerChars (trimChars line)) <;>
        cases h4 : containsTok "recommendation" (lowerChars (trimChars line)) <;>
          cases h5 : containsTok "priority" (lowerChars (trimChars line)) <;>
            cases h6 : containsTok "action" (lowerChars (trimChars line)) <;>
              simp_all [hne]

/-- Witness for C10: a bullet line whose text contains the token
"finding" does not append to the findings list even while the findings
section is active. -/
theorem C10_section_precedence_witness :
    (AIService.processLine
      { current_section := some NarrativeSection.findings, summary := "",
        findings := [], recommendations := [], priority_actions := [] }
      "- Key finding: utilization is low".data).findings = [] :=
  (C10_section_precedence
    { current_section := some NarrativeSection.findings, summary := "",
      findings := [], recommendations := [], priority_actions := [] }
    "- Key finding: utilization is low".data (by decide)).2.1
